import Mathlib

/-!
Verification of the ERC721Bridge orchestration logic
(packages/bridge-ui-v2/src/libs/bridge/ERC721Bridge.ts).

The TypeScript class is a thin client around an external contract-call
layer (readContract / simulateContract / writeContract), a canonical-token
resolver, a pause-status checker and a signal-proof prover.  We embed each
method as a pure function from the responses of those external
collaborators (an ExtEnv record) to an outcome: an Except value (the
resolved or rejected promise) paired with the list of external contract
calls the method issued, in order.  Machine integers (bigint, number) are
modelled as Nat, addresses and hashes as the hex strings JavaScript
manipulates, and JavaScript string truthiness is modelled explicitly.
-/

deriving instance DecidableEq for Except

/-- Hex-string account or contract address, as handled by viem. -/
abbrev Address := String

/-- Hex-string transaction hash. -/
abbrev Hash := String

/-- JavaScript truthiness of a string: every non-empty string is truthy.
Note that the zero address is a non-empty string, hence truthy. -/
def jsTruthy (s : String) : Bool := !(s == "")

/-- The 20-byte zero address returned by getApproved when no approval is set. -/
def zeroAddress : Address := "0x0000000000000000000000000000000000000000"

/-- Whether the character list starts with the given character list. -/
def charsStartWith : List Char → List Char → Bool
  | [], _ => true
  | _ :: _, [] => false
  | a :: as, b :: bs => a == b && charsStartWith as bs

/-- Whether the character list contains the given character list as a
contiguous segment. -/
def charsContain (sub : List Char) : List Char → Bool
  | [] => charsStartWith sub []
  | c :: cs => charsStartWith sub (c :: cs) || charsContain sub cs

/-- JavaScript String.prototype.includes: substring occurrence test. -/
def jsIncludes (s sub : String) : Bool := charsContain sub.data s.data

/-- The substring the source matches on to classify a wallet signature
rejection. -/
def deniedSig : String := "denied transaction signature"

/-- How a template interpolation renders the (possibly undefined) token id. -/
def jsShowId : Option Nat → String
  | none => "undefined"
  | some n => toString n

/-- The error classes that appear in the source file: the domain error
classes imported from the error module, viem's UserRejectedRequestError,
the plain Error class, and errors produced by the external collaborators. -/
inductive ErrKind where
  | bridgePaused
  | noCanonicalInfoFound
  | notApproved
  | noApprovalRequired
  | approveError
  | sendERC721Error
  | processMessageError
  | userRejectedRequest
  | plainError
  | externalError
  deriving DecidableEq, Repr

/-- A JavaScript error value: its class, its message, and an optional
cause (the options-bag cause argument used by the wrapping constructors). -/
inductive JsErr where
  | base (kind : ErrKind) (msg : String)
  | wrapped (kind : ErrKind) (msg : String) (cause : JsErr)
  deriving DecidableEq, Repr

/-- The class of an error value. -/
def JsErr.kind : JsErr → ErrKind
  | .base k _ => k
  | .wrapped k _ _ => k

/-- The cause of an error value, when one was attached. -/
def JsErr.cause : JsErr → Option JsErr
  | .base _ _ => none
  | .wrapped _ _ c => some c

/-- An error raised by an external collaborator, carrying its string form
(what the template interpolation of the error evaluates to). -/
def extErr (s : String) : JsErr := .base .externalError s

/-- SendERC721Error wrapping, as built at both catch sites of bridge. -/
def sendErr (cause : JsErr) : JsErr :=
  .wrapped .sendERC721Error "failed to bridge ERC721 token" cause

/-- ProcessMessageError wrapping, as built at the catch site of claim. -/
def processErr (cause : JsErr) : JsErr :=
  .wrapped .processMessageError "failed to process message" cause

/-- ApproveError wrapping, as built at the catch site of approve. -/
def approveWrapErr (cause : JsErr) : JsErr :=
  .wrapped .approveError "failed to approve ERC721 token" cause

/-- viem UserRejectedRequestError wrapping the underlying error. -/
def userRejectedErr (cause : JsErr) : JsErr :=
  .wrapped .userRejectedRequest "User rejected the request." cause

/-- The plain Error thrown when the wallet, its account or its chain is
missing. -/
def walletNotConnectedErr : JsErr := .base .plainError "Wallet is not connected"

/-- Whether a result is a rejection with the BridgePausedError class. -/
def isBridgePausedResult {α : Type} : Except JsErr α → Bool
  | .error e => e.kind == ErrKind.bridgePaused
  | .ok _ => false

/-- Message lifecycle states of the cross-chain message envelope. -/
inductive MessageStatus where
  | NEW
  | RETRIABLE
  | DONE
  | FAILED
  deriving DecidableEq, Repr

/-- The fields of the cross-chain message that the claim method reads. -/
structure Message where
  srcChainId : Nat
  destChainId : Nat
  gasLimit : Nat
  deriving DecidableEq, Repr

/-- Wallet client context: account and active chain, each possibly absent. -/
structure Wallet where
  account : Option Address
  chain : Option Nat
  deriving DecidableEq, Repr

/-- Static bridgeService configuration values read from the config module. -/
structure BridgeServiceConfig where
  noERC721TokenDeployedGasLimit : Nat
  noOwnerGasLimit : Nat
  erc721GasLimitThreshold : Nat
  deriving DecidableEq, Repr

/-- Arguments of requiresApproval.  The source destructures only the first
three fields; the chainId field of the args object is never read (the
chain id actually used comes from getWalletClient). -/
structure RequireApprovalArgs where
  tokenAddress : Address
  spenderAddress : Address
  tokenId : Option Nat
  chainId : Option Nat
  deriving DecidableEq, Repr

/-- Arguments of bridge and estimateGas. -/
structure ERC721BridgeArgs where
  «to» : Address
  wallet : Option Wallet
  srcChainId : Nat
  destChainId : Nat
  token : Address
  fee : Nat
  tokenVaultAddress : Address
  isTokenAlreadyDeployed : Bool
  memo : Option String
  tokenIds : List Nat
  amounts : List Nat
  deriving DecidableEq, Repr

/-- Arguments of approve. -/
structure NFTApproveArgs where
  tokenAddress : Address
  spenderAddress : Address
  wallet : Option Wallet
  tokenIds : List Nat
  deriving DecidableEq, Repr

/-- The on-wire transfer descriptor handed to sendToken. -/
structure NFTBridgeTransferOp where
  destChainId : Nat
  «to» : Address
  token : Address
  gasLimit : Nat
  fee : Nat
  refundTo : Address
  memo : String
  tokenIds : List Nat
  amounts : List Nat
  deriving DecidableEq, Repr

/-- One external contract call issued by a method, with the arguments the
source passes at that call site.  gas fields are Option: none means no
explicit gas limit was passed in the request object. -/
inductive Call where
  | readGetApproved (tokenAddress : Address) (tokenId : Option Nat) (chainId : Nat)
  | estimateGasSendToken (vault : Address) (op : NFTBridgeTransferOp) (value : Nat)
  | simulateSendToken (vault : Address) (op : NFTBridgeTransferOp) (value : Nat)
  | writeSendToken (vault : Address) (op : NFTBridgeTransferOp) (chainId : Nat) (value : Nat)
  | simulateProcessMessage (dest : Address) (message : Message) (gas : Option Nat)
  | writeProcessMessage (dest : Address) (message : Message) (gas : Option Nat)
  | simulateApprove (tokenAddress spender : Address) (tokenId : Option Nat) (chainId : Nat)
  | writeApprove (tokenAddress spender : Address) (tokenId : Option Nat) (chainId : Nat)
  deriving DecidableEq, Repr

/-- Whether a call is a state-changing write (a transaction submission). -/
def isWriteCall : Call → Bool
  | .writeSendToken _ _ _ _ => true
  | .writeProcessMessage _ _ _ => true
  | .writeApprove _ _ _ _ => true
  | _ => false

/-- Responses of the external collaborators for one method invocation:
the pause-status checker, the wallet client, readContract,
the canonical-token resolver, gas estimation, the simulate and write
primitives, the base-class pre-claim resolution and the prover.
External failures carry the string form of the thrown error. -/
structure ExtEnv where
  paused : Bool
  walletChainId : Nat
  getApprovedRes : Except String Address
  canonicalInfoRes : Except String (Option Address)
  estimateGasRes : Except String Nat
  simulateSendRes : Except String Unit
  writeSendRes : Except String Hash
  messageStatus : MessageStatus
  destBridgeAddress : Address
  proofRes : Except String String
  simulateProcessRes : Except String Unit
  writeProcessRes : Except String Hash
  simulateApproveRes : Except String Unit
  writeApproveRes : Except String Hash

namespace ERC721Bridge

/-- Embedding of requiresApproval.  The isBridgePaused().then chain is not
awaited: a rejection inside that chain becomes an unhandled promise
rejection and cannot reach the caller, so it contributes nothing to the
outcome.  The method then reads getApproved and returns the raw answer
(an address); the destructured spenderAddress is never used. -/
def requiresApproval (env : ExtEnv) (args : RequireApprovalArgs) :
    Except JsErr Address × List Call :=
  let _floatingPauseCheck := env.paused
  let call := Call.readGetApproved args.tokenAddress args.tokenId env.walletChainId
  match env.getApprovedRes with
  | .error s => (.error (extErr s), [call])
  | .ok addr => (.ok addr, [call])

/-- Embedding of the static _prepareTransaction helper: wallet/account
check, three-way gas-limit rule, descriptor construction. -/
def prepareTransaction (cfg : BridgeServiceConfig) (args : ERC721BridgeArgs) :
    Except JsErr NFTBridgeTransferOp :=
  match args.wallet with
  | none => .error walletNotConnectedErr
  | some w =>
    match w.account with
    | none => .error walletNotConnectedErr
    | some refundTo =>
      let gasLimit :=
        if !args.isTokenAlreadyDeployed then cfg.noERC721TokenDeployedGasLimit
        else if args.fee > 0 then cfg.noOwnerGasLimit
        else 0
      .ok {
        destChainId := args.destChainId
        «to» := args.«to»
        token := args.token
        gasLimit := gasLimit
        fee := args.fee
        refundTo := refundTo
        memo := args.memo.getD ""
        tokenIds := args.tokenIds
        amounts := args.amounts }

/-- Embedding of estimateGas: unawaited pause check, descriptor
preparation, then one estimateGas call on the vault contract. -/
def estimateGas (cfg : BridgeServiceConfig) (env : ExtEnv) (args : ERC721BridgeArgs) :
    Except JsErr Nat × List Call :=
  let _floatingPauseCheck := env.paused
  match prepareTransaction cfg args with
  | .error e => (.error e, [])
  | .ok op =>
    let c := Call.estimateGasSendToken args.tokenVaultAddress op op.fee
    match env.estimateGasRes with
    | .error s => (.error (extErr s), [c])
    | .ok g => (.ok g, [c])

/-- Embedding of bridge.  _prepareTransaction runs outside any try block,
so its wallet error propagates raw.  The first try block resolves the
canonical info, checks the wallet, and for a native token runs the
approval check; any throw inside it is wrapped as SendERC721Error.  The
second try block simulates sendToken (errors swallowed by the inner
try/catch) and submits the write; a write error containing the
denied-signature substring becomes UserRejectedRequestError, any other is
wrapped as SendERC721Error. -/
def bridge (cfg : BridgeServiceConfig) (env : ExtEnv) (args : ERC721BridgeArgs) :
    Except JsErr Hash × List Call :=
  match prepareTransaction cfg args with
  | .error e => (.error e, [])
  | .ok op =>
    let tokenId := args.tokenIds.head?
    let phase1 : Except JsErr Nat × List Call :=
      match env.canonicalInfoRes with
      | .error s => (.error (sendErr (extErr s)), [])
      | .ok none =>
        (.error (sendErr (.base .noCanonicalInfoFound "No canonical info found for token")), [])
      | .ok (some canonicalTokenAddress) =>
        match args.wallet with
        | none => (.error (sendErr walletNotConnectedErr), [])
        | some w =>
          match w.account, w.chain with
          | some _, some chainId =>
            if canonicalTokenAddress == args.token then
              let r := requiresApproval env {
                tokenAddress := args.token
                spenderAddress := args.tokenVaultAddress
                tokenId := tokenId
                chainId := some chainId }
              match r.1 with
              | .error e => (.error (sendErr e), r.2)
              | .ok addr =>
                if jsTruthy addr then
                  (.error (sendErr (.base .notApproved
                    ("The token with id " ++ jsShowId tokenId ++
                      " is not approved for the token vault"))), r.2)
                else (.ok chainId, r.2)
            else (.ok chainId, [])
          | _, _ => (.error (sendErr walletNotConnectedErr), [])
    match phase1 with
    | (.error e, calls) => (.error e, calls)
    | (.ok chainId, calls) =>
      let simCall := Call.simulateSendToken args.tokenVaultAddress op args.fee
      let wCall := Call.writeSendToken args.tokenVaultAddress op chainId args.fee
      match env.writeSendRes with
      | .error s =>
        if jsIncludes s deniedSig then
          (.error (userRejectedErr (extErr s)), calls ++ [simCall, wCall])
        else
          (.error (sendErr (extErr s)), calls ++ [simCall, wCall])
      | .ok h => (.ok h, calls ++ [simCall, wCall])

/-- Embedding of claim, after the base-class beforeClaiming resolved the
message status and destination bridge address (both provided by the
environment).  In the NEW branch the proof is fetched outside the try
block (its error propagates raw), then processMessage is simulated and
written, with an explicit gas field exactly when the message gas limit
exceeds the configured threshold.  On full success the constant hash 0x
is returned, discarding the write's transaction hash.  Any non-NEW status
throws the plain not-implemented Error before any call. -/
def claim (cfg : BridgeServiceConfig) (env : ExtEnv) (message : Message) :
    Except JsErr Hash × List Call :=
  if env.messageStatus = MessageStatus.NEW then
    match env.proofRes with
    | .error s => (.error (extErr s), [])
    | .ok _proof =>
      let gas : Option Nat :=
        if message.gasLimit > cfg.erc721GasLimitThreshold then some message.gasLimit
        else none
      let simCall := Call.simulateProcessMessage env.destBridgeAddress message gas
      match env.simulateProcessRes with
      | .error s =>
        if jsIncludes s deniedSig then (.error (userRejectedErr (extErr s)), [simCall])
        else (.error (processErr (extErr s)), [simCall])
      | .ok _ =>
        let wCall := Call.writeProcessMessage env.destBridgeAddress message gas
        match env.writeProcessRes with
        | .error s =>
          if jsIncludes s deniedSig then
            (.error (userRejectedErr (extErr s)), [simCall, wCall])
          else
            (.error (processErr (extErr s)), [simCall, wCall])
        | .ok _txHash => (.ok "0x", [simCall, wCall])
  else
    (.error (.base .plainError "Not implemented"), [])

/-- Embedding of approve.  The wallet check, the approval query and the
no-approval-required guard all run outside the try block, so their errors
propagate unwrapped.  The guard fires only when the raw address returned
by requiresApproval is falsy.  The try block simulates then writes the
approve call, classifying denied-signature errors as
UserRejectedRequestError and wrapping the rest as ApproveError. -/
def approve (env : ExtEnv) (args : NFTApproveArgs) :
    Except JsErr Hash × List Call :=
  let tokenId := args.tokenIds.head?
  match args.wallet with
  | none => (.error walletNotConnectedErr, [])
  | some w =>
    match w.account, w.chain with
    | some _, some chainId =>
      let r := requiresApproval env {
        tokenAddress := args.tokenAddress
        spenderAddress := args.spenderAddress
        tokenId := tokenId
        chainId := some chainId }
      match r.1 with
      | .error e => (.error e, r.2)
      | .ok addr =>
        if !jsTruthy addr then
          (.error (.base .noApprovalRequired
            ("No approval required for the token " ++ jsShowId tokenId)), r.2)
        else
          let simCall := Call.simulateApprove args.tokenAddress args.spenderAddress tokenId chainId
          match env.simulateApproveRes with
          | .error s =>
            if jsIncludes s deniedSig then
              (.error (userRejectedErr (extErr s)), r.2 ++ [simCall])
            else
              (.error (approveWrapErr (extErr s)), r.2 ++ [simCall])
          | .ok _ =>
            let wCall := Call.writeApprove args.tokenAddress args.spenderAddress tokenId chainId
            match env.writeApproveRes with
            | .error s =>
              if jsIncludes s deniedSig then
                (.error (userRejectedErr (extErr s)), r.2 ++ [simCall, wCall])
              else
                (.error (approveWrapErr (extErr s)), r.2 ++ [simCall, wCall])
            | .ok h => (.ok h, r.2 ++ [simCall, wCall])
    | _, _ => (.error walletNotConnectedErr, [])

end ERC721Bridge

/-- Modelled from the spec (claim C1): the approval check is claimed to
return the boolean comparison of the approval-getter answer against the
spender address, true exactly when the spender is currently authorized to
move the token id. -/
def requiresApprovalSpec (getApprovedAnswer spenderAddress : Address) : Bool :=
  getApprovedAnswer == spenderAddress

/-- A baseline environment for concrete evaluations; individual claims
override the fields they exercise. -/
def env0 : ExtEnv := {
  paused := false
  walletChainId := 1
  getApprovedRes := .ok zeroAddress
  canonicalInfoRes := .ok none
  estimateGasRes := .ok 21000
  simulateSendRes := .ok ()
  writeSendRes := .ok "0xsendhash"
  messageStatus := MessageStatus.NEW
  destBridgeAddress := "0xbridge"
  proofRes := .ok "0xproof"
  simulateProcessRes := .ok ()
  writeProcessRes := .ok "0xprocesshash"
  simulateApproveRes := .ok ()
  writeApproveRes := .ok "0xapprovehash" }

/-- Concrete configuration values for witnesses. -/
def cfg0 : BridgeServiceConfig := {
  noERC721TokenDeployedGasLimit := 3000000
  noOwnerGasLimit := 1300000
  erc721GasLimitThreshold := 3000000 }

/-- Concrete bridge arguments with a connected wallet and one token id. -/
def bridgeArgs0 : ERC721BridgeArgs := {
  «to» := "0xrecipient"
  wallet := some { account := some "0xuser", chain := some 1 }
  srcChainId := 1
  destChainId := 167
  token := "0xtoken"
  fee := 0
  tokenVaultAddress := "0xvault"
  isTokenAlreadyDeployed := true
  memo := none
  tokenIds := [7]
  amounts := [1] }

/-- Concrete approve arguments with a connected wallet and one token id. -/
def approveArgs0 : NFTApproveArgs := {
  tokenAddress := "0xtoken"
  spenderAddress := "0xvault"
  wallet := some { account := some "0xuser", chain := some 1 }
  tokenIds := [7] }

/-- A message whose gas limit exceeds the cfg0 threshold. -/
def msgHigh : Message := { srcChainId := 1, destChainId := 167, gasLimit := 4000000 }

/-- A realistic string form of a wallet rejection error. -/
def deniedMsg : String := "MetaMask Tx Signature: User denied transaction signature."

/-- Environment where getApproved answers the vault address itself, i.e.
the spender is already approved for the token id. -/
def envApproved : ExtEnv := { env0 with getApprovedRes := .ok "0xvault" }

/-- Environment where the token is native (canonical address equals the
source token address) and getApproved answers the zero address, i.e. no
approval exists. -/
def envNativeUnapproved : ExtEnv := { env0 with canonicalInfoRes := .ok (some "0xtoken") }

/-- Environment where the canonical-info lookup itself rejects with a
denied-signature string form. -/
def deniedCanonEnv : ExtEnv := { env0 with canonicalInfoRes := .error deniedMsg }

/-- Environment with a RETRIABLE message status. -/
def envRetriable : ExtEnv := { env0 with messageStatus := MessageStatus.RETRIABLE }

/-- Environment for a bridged token whose sendToken write is rejected by
the user. -/
def envBridgedDenied : ExtEnv :=
  { env0 with canonicalInfoRes := .ok (some "0xcanonical"), writeSendRes := .error deniedMsg }

/-- Environment whose processMessage write is rejected by the user. -/
def envProcessDenied : ExtEnv := { env0 with writeProcessRes := .error deniedMsg }

/-- Environment whose approve write is rejected by the user. -/
def envApproveDenied : ExtEnv :=
  { env0 with getApprovedRes := .ok "0xsomeone", writeApproveRes := .error deniedMsg }

/-- Bridge arguments with an empty token-id list. -/
def emptyBridgeArgs : ERC721BridgeArgs := { bridgeArgs0 with tokenIds := [], amounts := [] }

/-- Approve arguments with an empty token-id list. -/
def emptyApproveArgs : NFTApproveArgs := { approveArgs0 with tokenIds := [] }

/-- If _prepareTransaction rejects, the rejection is the plain
wallet-not-connected Error. -/
theorem prepareTransaction_error_shape (cfg : BridgeServiceConfig) (args : ERC721BridgeArgs)
    (e : JsErr) (h : ERC721Bridge.prepareTransaction cfg args = .error e) :
    e = walletNotConnectedErr := by
  unfold ERC721Bridge.prepareTransaction at h
  cases hw : args.wallet with
  | none => simp [hw] at h; exact h.symm
  | some w =>
    cases hacct : w.account with
    | none => simp [hw, hacct] at h; exact h.symm
    | some a => simp [hw, hacct] at h

/-- Claim C1 (code bug): requiresApproval is claimed to return the boolean
comparison of the approval-getter answer against the spender address.  The
source instead returns the raw address answered by getApproved and never
reads the spender: with the vault itself approved the call resolves to the
vault address, with no approval it resolves to the zero address, and both
values are truthy strings even though the claimed comparison differs
between the two inputs. -/
theorem requiresApproval_returns_raw_address :
    (ERC721Bridge.requiresApproval envApproved
        { tokenAddress := "0xtoken", spenderAddress := "0xvault",
          tokenId := some 1, chainId := some 1 }).1 = .ok "0xvault"
    ∧ requiresApprovalSpec "0xvault" "0xvault" = true
    ∧ (ERC721Bridge.requiresApproval env0
        { tokenAddress := "0xtoken", spenderAddress := "0xvault",
          tokenId := some 1, chainId := some 1 }).1 = .ok zeroAddress
    ∧ requiresApprovalSpec zeroAddress "0xvault" = false
    ∧ jsTruthy "0xvault" = jsTruthy zeroAddress := by decide

/-- Claim C2 (code bug): with the spender already approved for the token
id (getApproved answers the spender address), approve is claimed to reject
with NoApprovalRequiredError and submit no write.  Because the raw address
returned by requiresApproval is a truthy string, the guard never fires:
the call resolves with the write transaction hash and the approve write is
submitted. -/
theorem approve_writes_when_already_approved :
    requiresApprovalSpec "0xvault" "0xvault" = true
    ∧ (ERC721Bridge.approve envApproved approveArgs0).1 = .ok "0xapprovehash"
    ∧ Call.writeApprove "0xtoken" "0xvault" (some 7) 1
        ∈ (ERC721Bridge.approve envApproved approveArgs0).2 := by decide

/-- Claim C3, counterexample: for a native token with no existing approval
the error bridge rejects with is the SendERC721Error wrapper, not the
NotApprovedError itself (which only appears as its cause). -/
theorem bridge_unapproved_raises_wrapped_error :
    (ERC721Bridge.bridge cfg0 envNativeUnapproved bridgeArgs0).1 =
      .error (sendErr (.base .notApproved
        "The token with id 7 is not approved for the token vault"))
    ∧ JsErr.kind (sendErr (.base .notApproved
        "The token with id 7 is not approved for the token vault"))
        ≠ ErrKind.notApproved
    ∧ (ERC721Bridge.bridge cfg0 envNativeUnapproved bridgeArgs0).2.all
        (fun c => !(isWriteCall c)) = true := by decide

/-- Claim C3, amended: for every bridge call on a native token (canonical
address equals the source token address) whose first token id has no
existing approval (getApproved answers the zero address), bridge rejects
before any write is attempted, with the SendERC721Error wrapping the
NotApprovedError as its cause. -/
theorem bridge_native_unapproved_fails_before_write
    (cfg : BridgeServiceConfig) (env : ExtEnv) (args : ERC721BridgeArgs)
    (w : Wallet) (acct : Address) (chainId : Nat)
    (hw : args.wallet = some w) (hacct : w.account = some acct) (hchain : w.chain = some chainId)
    (hcanon : env.canonicalInfoRes = .ok (some args.token))
    (happr : env.getApprovedRes = .ok zeroAddress) :
    (ERC721Bridge.bridge cfg env args).1 =
      .error (sendErr (.base .notApproved
        ("The token with id " ++ jsShowId args.tokenIds.head? ++
          " is not approved for the token vault")))
    ∧ (ERC721Bridge.bridge cfg env args).2.all (fun c => !(isWriteCall c)) = true := by
  have hz : jsTruthy zeroAddress = true := by decide
  simp [ERC721Bridge.bridge, ERC721Bridge.prepareTransaction, ERC721Bridge.requiresApproval,
    hw, hacct, hchain, hcanon, happr, hz, isWriteCall]

/-- Claim C3, witness instantiating the amended statement. -/
theorem bridge_native_unapproved_fails_before_write_witness :
    (ERC721Bridge.bridge cfg0 envNativeUnapproved bridgeArgs0).1 =
      .error (sendErr (.base .notApproved
        ("The token with id " ++ jsShowId bridgeArgs0.tokenIds.head? ++
          " is not approved for the token vault")))
    ∧ (ERC721Bridge.bridge cfg0 envNativeUnapproved bridgeArgs0).2.all
        (fun c => !(isWriteCall c)) = true :=
  bridge_native_unapproved_fails_before_write cfg0 envNativeUnapproved bridgeArgs0
    { account := some "0xuser", chain := some 1 } "0xuser" 1 rfl rfl rfl rfl rfl

/-- Claim C4: in the NEW branch of claim, an explicit gas field equal to
the message gas limit is attached to both the simulate and the write
processMessage calls exactly when the message gas limit strictly exceeds
the configured threshold; otherwise neither call carries a gas field. -/
theorem claim_gas_limit_threshold
    (cfg : BridgeServiceConfig) (env : ExtEnv) (message : Message) (pf : String) (txh : Hash)
    (hs : env.messageStatus = MessageStatus.NEW)
    (hp : env.proofRes = .ok pf)
    (hsim : env.simulateProcessRes = .ok ())
    (hw : env.writeProcessRes = .ok txh) :
    (ERC721Bridge.claim cfg env message).2 =
      [Call.simulateProcessMessage env.destBridgeAddress message
          (if message.gasLimit > cfg.erc721GasLimitThreshold then some message.gasLimit else none),
        Call.writeProcessMessage env.destBridgeAddress message
          (if message.gasLimit > cfg.erc721GasLimitThreshold then some message.gasLimit else none)] := by
  unfold ERC721Bridge.claim
  rw [if_pos hs, hp, hsim, hw]

/-- Claim C4, witness: a gas limit above the threshold yields explicit gas
fields on both calls. -/
theorem claim_gas_limit_threshold_witness :
    (ERC721Bridge.claim cfg0 env0 msgHigh).2 =
      [Call.simulateProcessMessage env0.destBridgeAddress msgHigh
          (if msgHigh.gasLimit > cfg0.erc721GasLimitThreshold then some msgHigh.gasLimit else none),
        Call.writeProcessMessage env0.destBridgeAddress msgHigh
          (if msgHigh.gasLimit > cfg0.erc721GasLimitThreshold then some msgHigh.gasLimit else none)] :=
  claim_gas_limit_threshold cfg0 env0 msgHigh "0xproof" "0xprocesshash" rfl rfl rfl rfl

/-- Claim C5: whenever the resolved message status is not NEW, claim
rejects with the plain not-implemented Error and issues no external call,
in particular no write. -/
theorem claim_non_new_not_implemented
    (cfg : BridgeServiceConfig) (env : ExtEnv) (message : Message)
    (hs : env.messageStatus ≠ MessageStatus.NEW) :
    (ERC721Bridge.claim cfg env message).1 = .error (.base .plainError "Not implemented")
    ∧ (ERC721Bridge.claim cfg env message).2 = [] := by
  unfold ERC721Bridge.claim
  rw [if_neg hs]
  exact ⟨rfl, rfl⟩

/-- Claim C5, witness at the RETRIABLE status. -/
theorem claim_non_new_not_implemented_witness :
    (ERC721Bridge.claim cfg0 envRetriable msgHigh).1 =
      .error (.base .plainError "Not implemented")
    ∧ (ERC721Bridge.claim cfg0 envRetriable msgHigh).2 = [] :=
  claim_non_new_not_implemented cfg0 envRetriable msgHigh (by decide)

/-- Claim C6, counterexample: an underlying error whose string form
contains the denied-signature substring but which arises in the
canonical-info phase of bridge is wrapped as SendERC721Error, not
re-raised as UserRejectedRequestError. -/
theorem bridge_phase1_denied_not_user_rejection :
    jsIncludes deniedMsg deniedSig = true
    ∧ (ERC721Bridge.bridge cfg0 deniedCanonEnv bridgeArgs0).1 =
        .error (sendErr (extErr deniedMsg))
    ∧ JsErr.kind (sendErr (extErr deniedMsg)) ≠ ErrKind.userRejectedRequest := by decide

/-- Claim C6, amended: in the transaction-submission phase of each of the
three operations — the sendToken write of bridge, the processMessage
simulate/write try block of claim and the approve simulate/write try
block of approve — an error whose string form contains the
denied-signature substring is re-raised as UserRejectedRequestError ahead
of the generic semantic wrapper. -/
theorem denied_signature_user_rejection_in_submission
    (cfg : BridgeServiceConfig)
    (enva : ExtEnv) (argsa : ERC721BridgeArgs) (wa : Wallet) (accta : Address) (cida : Nat)
    (ca : Address) (sa : String)
    (hwa : argsa.wallet = some wa) (hacca : wa.account = some accta) (hcha : wa.chain = some cida)
    (hca : enva.canonicalInfoRes = .ok (some ca)) (hne : (ca == argsa.token) = false)
    (hws : enva.writeSendRes = .error sa) (hda : jsIncludes sa deniedSig = true)
    (envb : ExtEnv) (msgb : Message) (pfb : String) (sb : String)
    (hsb : envb.messageStatus = MessageStatus.NEW) (hpb : envb.proofRes = .ok pfb)
    (hsimb : envb.simulateProcessRes = .ok ()) (hwb : envb.writeProcessRes = .error sb)
    (hdb : jsIncludes sb deniedSig = true)
    (envc : ExtEnv) (argsc : NFTApproveArgs) (wc : Wallet) (acctc : Address) (cidc : Nat)
    (addrc : Address) (sc : String)
    (hwc : argsc.wallet = some wc) (haccc : wc.account = some acctc) (hchc : wc.chain = some cidc)
    (hgc : envc.getApprovedRes = .ok addrc) (htc : jsTruthy addrc = true)
    (hsimc : envc.simulateApproveRes = .ok ()) (hwrc : envc.writeApproveRes = .error sc)
    (hdc : jsIncludes sc deniedSig = true) :
    (ERC721Bridge.bridge cfg enva argsa).1 = .error (userRejectedErr (extErr sa))
    ∧ (ERC721Bridge.claim cfg envb msgb).1 = .error (userRejectedErr (extErr sb))
    ∧ (ERC721Bridge.approve envc argsc).1 = .error (userRejectedErr (extErr sc)) := by
  refine ⟨?_, ?_, ?_⟩
  · simp [ERC721Bridge.bridge, ERC721Bridge.prepareTransaction,
      hwa, hacca, hcha, hca, hws, hne, hda]
  · unfold ERC721Bridge.claim
    rw [if_pos hsb, hpb, hsimb, hwb]
    simp [hdb]
  · simp [ERC721Bridge.approve, ERC721Bridge.requiresApproval,
      hwc, haccc, hchc, hgc, hsimc, hwrc, htc, hdc]

/-- Claim C6, witness instantiating the amended statement on a bridged
token, a NEW-status claim and an already-truthy approve answer, all three
writes rejected by the user. -/
theorem denied_signature_user_rejection_in_submission_witness :
    (ERC721Bridge.bridge cfg0 envBridgedDenied bridgeArgs0).1 =
      .error (userRejectedErr (extErr deniedMsg))
    ∧ (ERC721Bridge.claim cfg0 envProcessDenied msgHigh).1 =
        .error (userRejectedErr (extErr deniedMsg))
    ∧ (ERC721Bridge.approve envApproveDenied approveArgs0).1 =
        .error (userRejectedErr (extErr deniedMsg)) :=
  denied_signature_user_rejection_in_submission cfg0
    envBridgedDenied bridgeArgs0 { account := some "0xuser", chain := some 1 } "0xuser" 1
    "0xcanonical" deniedMsg rfl rfl rfl rfl (by decide) rfl (by decide)
    envProcessDenied msgHigh "0xproof" deniedMsg rfl rfl rfl rfl (by decide)
    envApproveDenied approveArgs0 { account := some "0xuser", chain := some 1 } "0xuser" 1
    "0xsomeone" deniedMsg rfl rfl rfl rfl (by decide) rfl rfl (by decide)

/-- Claim C7: for a wallet with an account, _prepareTransaction resolves
with a descriptor whose gas limit follows the three-way rule: the fixed
not-deployed limit when the destination token contract is not yet
deployed, else the fixed no-owner limit when the fee is strictly
positive, else zero. -/
theorem prepareTransaction_gas_limit_rule
    (cfg : BridgeServiceConfig) (args : ERC721BridgeArgs) (w : Wallet) (acct : Address)
    (hw : args.wallet = some w) (hacct : w.account = some acct) :
    ∃ op, ERC721Bridge.prepareTransaction cfg args = .ok op
      ∧ op.gasLimit =
          (if !args.isTokenAlreadyDeployed then cfg.noERC721TokenDeployedGasLimit
            else if args.fee > 0 then cfg.noOwnerGasLimit
            else 0) := by
  refine ⟨{
    destChainId := args.destChainId
    «to» := args.«to»
    token := args.token
    gasLimit :=
      if !args.isTokenAlreadyDeployed then cfg.noERC721TokenDeployedGasLimit
      else if args.fee > 0 then cfg.noOwnerGasLimit
      else 0
    fee := args.fee
    refundTo := acct
    memo := args.memo.getD ""
    tokenIds := args.tokenIds
    amounts := args.amounts }, ?_, rfl⟩
  simp [ERC721Bridge.prepareTransaction, hw, hacct]

/-- Claim C7, witness. -/
theorem prepareTransaction_gas_limit_rule_witness :
    ∃ op, ERC721Bridge.prepareTransaction cfg0 bridgeArgs0 = .ok op
      ∧ op.gasLimit =
          (if !bridgeArgs0.isTokenAlreadyDeployed then cfg0.noERC721TokenDeployedGasLimit
            else if bridgeArgs0.fee > 0 then cfg0.noOwnerGasLimit
            else 0) :=
  prepareTransaction_gas_limit_rule cfg0 bridgeArgs0
    { account := some "0xuser", chain := some 1 } "0xuser" rfl rfl

/-- Claim C8: on the fully successful NEW path, claim resolves with the
constant hash 0x; the transaction hash produced by the processMessage
write is discarded, whatever it was. -/
theorem claim_returns_constant_hash
    (cfg : BridgeServiceConfig) (env : ExtEnv) (message : Message) (pf : String) (txh : Hash)
    (hs : env.messageStatus = MessageStatus.NEW)
    (hp : env.proofRes = .ok pf)
    (hsim : env.simulateProcessRes = .ok ())
    (hw : env.writeProcessRes = .ok txh) :
    (ERC721Bridge.claim cfg env message).1 = .ok "0x" := by
  unfold ERC721Bridge.claim
  rw [if_pos hs, hp, hsim, hw]

/-- Claim C8, witness: the write produced 0xprocesshash, yet claim
resolves with 0x. -/
theorem claim_returns_constant_hash_witness :
    (ERC721Bridge.claim cfg0 env0 msgHigh).1 = .ok "0x" :=
  claim_returns_constant_hash cfg0 env0 msgHigh "0xproof" "0xprocesshash" rfl rfl rfl rfl

/-- Claim C9: the pause-status check of requiresApproval and estimateGas
is started but not awaited, so the whole outcome (result and calls) of
both operations is identical whether the bridge is paused or not, and
neither operation ever rejects with the BridgePausedError class. -/
theorem pause_status_has_no_effect
    (cfg : BridgeServiceConfig) (env : ExtEnv) (b : Bool)
    (rargs : RequireApprovalArgs) (args : ERC721BridgeArgs) :
    ERC721Bridge.requiresApproval { env with paused := b } rargs
        = ERC721Bridge.requiresApproval env rargs
    ∧ ERC721Bridge.estimateGas cfg { env with paused := b } args
        = ERC721Bridge.estimateGas cfg env args
    ∧ isBridgePausedResult (ERC721Bridge.requiresApproval env rargs).1 = false
    ∧ isBridgePausedResult (ERC721Bridge.estimateGas cfg env args).1 = false := by
  refine ⟨?_, ?_, ?_, ?_⟩
  · unfold ERC721Bridge.requiresApproval
    rfl
  · unfold ERC721Bridge.estimateGas
    rfl
  · unfold ERC721Bridge.requiresApproval
    cases h : env.getApprovedRes <;> simp [isBridgePausedResult, extErr, JsErr.kind]
  · unfold ERC721Bridge.estimateGas
    cases hp : ERC721Bridge.prepareTransaction cfg args with
    | error e =>
      have he := prepareTransaction_error_shape cfg args e hp
      subst he
      simp [isBridgePausedResult, walletNotConnectedErr, JsErr.kind]
    | ok op =>
      cases h : env.estimateGasRes <;> simp [isBridgePausedResult, extErr, JsErr.kind]

/-- Claim C10: with an empty token-id list and a connected wallet, neither
bridge (on a native token) nor approve fails up front: both issue the
getApproved query with the undefined token id, and the descriptor built by
_prepareTransaction still carries the full empty token-id list. -/
theorem empty_token_ids_no_guard
    (cfg : BridgeServiceConfig) (enva : ExtEnv) (argsa : ERC721BridgeArgs)
    (wa : Wallet) (accta : Address) (cida : Nat)
    (hempty : argsa.tokenIds = [])
    (hwa : argsa.wallet = some wa) (hacca : wa.account = some accta) (hcha : wa.chain = some cida)
    (hcanon : enva.canonicalInfoRes = .ok (some argsa.token))
    (envc : ExtEnv) (argsc : NFTApproveArgs) (wc : Wallet) (acctc : Address) (cidc : Nat)
    (hemptyc : argsc.tokenIds = [])
    (hwc : argsc.wallet = some wc) (haccc : wc.account = some acctc) (hchc : wc.chain = some cidc) :
    Call.readGetApproved argsa.token none enva.walletChainId
        ∈ (ERC721Bridge.bridge cfg enva argsa).2
    ∧ (∃ op, ERC721Bridge.prepareTransaction cfg argsa = .ok op ∧ op.tokenIds = [])
    ∧ Call.readGetApproved argsc.tokenAddress none envc.walletChainId
        ∈ (ERC721Bridge.approve envc argsc).2 := by
  refine ⟨?_, ?_, ?_⟩
  · cases hga : enva.getApprovedRes with
    | error s =>
      simp [ERC721Bridge.bridge, ERC721Bridge.prepareTransaction,
        ERC721Bridge.requiresApproval, hwa, hacca, hcha, hcanon, hempty, hga]
    | ok addr =>
      cases ht : jsTruthy addr
      · cases hwr : enva.writeSendRes with
        | error s =>
          cases hd : jsIncludes s deniedSig <;>
            simp [ERC721Bridge.bridge, ERC721Bridge.prepareTransaction,
              ERC721Bridge.requiresApproval, hwa, hacca, hcha, hcanon, hempty, hga, ht, hwr, hd]
        | ok h =>
          simp [ERC721Bridge.bridge, ERC721Bridge.prepareTransaction,
            ERC721Bridge.requiresApproval, hwa, hacca, hcha, hcanon, hempty, hga, ht, hwr]
      · simp [ERC721Bridge.bridge, ERC721Bridge.prepareTransaction,
          ERC721Bridge.requiresApproval, hwa, hacca, hcha, hcanon, hempty, hga, ht]
  · refine ⟨{
      destChainId := argsa.destChainId
      «to» := argsa.«to»
      token := argsa.token
      gasLimit :=
        if !argsa.isTokenAlreadyDeployed then cfg.noERC721TokenDeployedGasLimit
        else if argsa.fee > 0 then cfg.noOwnerGasLimit
        else 0
      fee := argsa.fee
      refundTo := accta
      memo := argsa.memo.getD ""
      tokenIds := argsa.tokenIds
      amounts := argsa.amounts }, ?_, hempty⟩
    simp [ERC721Bridge.prepareTransaction, hwa, hacca]
  · cases hga : envc.getApprovedRes with
    | error s =>
      simp [ERC721Bridge.approve, ERC721Bridge.requiresApproval,
        hwc, haccc, hchc, hemptyc, hga]
    | ok addr =>
      cases ht : jsTruthy addr
      · simp [ERC721Bridge.approve, ERC721Bridge.requiresApproval,
          hwc, haccc, hchc, hemptyc, hga, ht]
      · cases hsa : envc.simulateApproveRes with
        | error s =>
          cases hd : jsIncludes s deniedSig <;>
            simp [ERC721Bridge.approve, ERC721Bridge.requiresApproval,
              hwc, haccc, hchc, hemptyc, hga, ht, hsa, hd]
        | ok u =>
          cases hwr : envc.writeApproveRes with
          | error s =>
            cases hd : jsIncludes s deniedSig <;>
              simp [ERC721Bridge.approve, ERC721Bridge.requiresApproval,
                hwc, haccc, hchc, hemptyc, hga, ht, hsa, hwr, hd]
          | ok h =>
            simp [ERC721Bridge.approve, ERC721Bridge.requiresApproval,
              hwc, haccc, hchc, hemptyc, hga, ht, hsa, hwr]

/-- Claim C10, witness. -/
theorem empty_token_ids_no_guard_witness :
    Call.readGetApproved emptyBridgeArgs.token none envNativeUnapproved.walletChainId
        ∈ (ERC721Bridge.bridge cfg0 envNativeUnapproved emptyBridgeArgs).2
    ∧ (∃ op, ERC721Bridge.prepareTransaction cfg0 emptyBridgeArgs = .ok op ∧ op.tokenIds = [])
    ∧ Call.readGetApproved emptyApproveArgs.tokenAddress none env0.walletChainId
        ∈ (ERC721Bridge.approve env0 emptyApproveArgs).2 :=
  empty_token_ids_no_guard cfg0 envNativeUnapproved emptyBridgeArgs
    { account := some "0xuser", chain := some 1 } "0xuser" 1 rfl rfl rfl rfl rfl
    env0 emptyApproveArgs { account := some "0xuser", chain := some 1 } "0xuser" 1
    rfl rfl rfl rfl
